import Mathlib

/-!
Verification of the StatMonitor snapshot store (src/src/main.rs).

The program serves a cached resource snapshot over HTTP.  The handler
`root` locks the shared `AppState`, compares the current wall-clock time
against `last_updated`, and either serves the stored snapshot unchanged
or re-samples memory, swap and CPU from the OS, replacing the stored
snapshot wholesale on full success and returning an error (leaving the
state untouched) when any sampling fails.

Shallow embedding conventions:
  - `u64` byte counts are `Nat` (Rust's `saturating_sub_bytes` is exactly
    Nat truncated subtraction on in-range values);
  - the `i64` timestamps are `Int` (no reachable value approaches the
    i64 range, so wrap-around is irrelevant);
  - `f32` CPU fractions are modelled as exact rationals `ℚ`; the source
    only multiplies them by the literal `100.0`;
  - each fallible OS call (`sys.memory()`, `sys.swap()`,
    `sys.cpu_load_aggregate()` chained with `.done()`) is an
    `Except Unit _` argument, making the handler a pure function of the
    stored state, the request time, and the three sampler outcomes;
  - the Tokio mutex serialises the whole handler body, so two concurrent
    requests are modelled as sequential composition (`serveTwo`).
-/

namespace StatMonitor

/-- Mirrors `struct Memory { used: u64, total: u64 }`. -/
structure Memory where
  used : Nat
  total : Nat
deriving DecidableEq, Repr

/-- Mirrors `struct CPU` with the five `f32` percentage fields. -/
structure CPU where
  user : ℚ
  nice : ℚ
  interrupt : ℚ
  system : ℚ
  idle : ℚ
deriving DecidableEq, Repr

/-- Mirrors `struct AppState`: the process-wide stored snapshot. -/
structure AppState where
  cpu_usage : CPU
  memory_usage : Memory
  swap_usage : Memory
  last_updated : Int
deriving DecidableEq, Repr

/-- The raw reading `sys.memory()` / `sys.swap()` yields on success:
systemstat exposes `total` and `free` byte counts. -/
structure RawMemory where
  total : Nat
  free : Nat
deriving DecidableEq, Repr

/-- The raw reading the CPU load aggregate yields on success: five
fractional loads (systemstat `CPULoad`). -/
structure RawCpu where
  user : ℚ
  nice : ℚ
  interrupt : ℚ
  system : ℚ
  idle : ℚ
deriving DecidableEq, Repr

/-- The JSON body the handler returns: either the snapshot object
`{"cpu":…, "memory":…, "swap":…}` or `{"error": msg}`. -/
inductive RootResponse where
  | ok (cpu : CPU) (memory : Memory) (swap : Memory)
  | err (msg : String)
deriving DecidableEq, Repr

/-- True exactly on the error responses. -/
def RootResponse.isErr : RootResponse → Bool
  | .ok _ _ _ => false
  | .err _ => true

/-- The initial stored snapshot built in `main` (lines 47–64): all five
CPU fields `0.0`, memory and swap `{used: 0, total: 0}`, `last_updated = 0`. -/
def initState : AppState :=
  { cpu_usage := { user := 0, nice := 0, interrupt := 0, system := 0, idle := 0 }
  , memory_usage := { used := 0, total := 0 }
  , swap_usage := { used := 0, total := 0 }
  , last_updated := 0 }

/-- The `match sys.memory() { Ok(mem) => Some(Memory { used:
saturating_sub_bytes(mem.total, mem.free), total: mem.total }), Err(_) =>
None }` expression (lines 92–98; the swap arm at lines 99–105 is the same
expression applied to `sys.swap()`).  Nat subtraction is saturating. -/
def sampleMemory : Except Unit RawMemory → Option Memory
  | .ok m => some { used := m.total - m.free, total := m.total }
  | .error _ => none

/-- The snapshot JSON body built from the stored state (lines 140–144 and
146–150 build the same object). -/
def snapshotJson (s : AppState) : RootResponse :=
  .ok s.cpu_usage s.memory_usage s.swap_usage

/-- The refresh path of `root` (lines 91–144): sample memory, swap and
CPU, return the first error in the order memory, swap, cpu without
touching the state, and on full success replace the stored snapshot
wholesale (CPU fractions scaled by 100, `last_updated := now`) and return
the snapshot body built from the new state. -/
def refresh (s : AppState) (now : Int)
    (memRes : Except Unit RawMemory) (swapRes : Except Unit RawMemory)
    (cpuRes : Except Unit RawCpu) : AppState × RootResponse :=
  let mem := sampleMemory memRes
  let swap := sampleMemory swapRes
  match mem, swap, cpuRes with
  | none, _, _ => (s, .err "failed to get memory usage")
  | some _, none, _ => (s, .err "failed to get swap usage")
  | some _, some _, .error _ => (s, .err "failed to get cpu usage")
  | some m, some sw, .ok c =>
    let s2 : AppState :=
      { cpu_usage :=
          { user := c.user * 100
          , nice := c.nice * 100
          , interrupt := c.interrupt * 100
          , system := c.system * 100
          , idle := c.idle * 100 }
      , memory_usage := { used := m.used, total := m.total }
      , swap_usage := { used := sw.used, total := sw.total }
      , last_updated := now }
    (s2, snapshotJson s2)

/-- The handler `root` (lines 87–152) as a pure function: given the
stored state, the request time `now` and the three sampler outcomes, it
returns the state after the call and the JSON response.  The staleness
test is line 90: `if now - state.last_updated > 5`. -/
def root (s : AppState) (now : Int)
    (memRes : Except Unit RawMemory) (swapRes : Except Unit RawMemory)
    (cpuRes : Except Unit RawCpu) : AppState × RootResponse :=
  if now - s.last_updated > 5 then
    refresh s now memRes swapRes cpuRes
  else
    (s, snapshotJson s)

/-- One sampler invocation: the three outcomes one pass of lines 92–108
produces. -/
structure SamplerRun where
  memRes : Except Unit RawMemory
  swapRes : Except Unit RawMemory
  cpuRes : Except Unit RawCpu
deriving Repr

/-- Two requests serialised by the mutex (line 88 makes the whole handler
body one critical section): the second runs on the state the first left
behind.  Returns both responses, the final state, and how many sampling
passes occurred (a pass occurs exactly when the staleness test of line 90
succeeds). -/
def serveTwo (s0 : AppState) (now₁ now₂ : Int) (r₁ r₂ : SamplerRun) :
    RootResponse × RootResponse × AppState × Nat :=
  let p₁ := root s0 now₁ r₁.memRes r₁.swapRes r₁.cpuRes
  let p₂ := root p₁.1 now₂ r₂.memRes r₂.swapRes r₂.cpuRes
  (p₁.2, p₂.2, p₂.1,
    (if now₁ - s0.last_updated > 5 then 1 else 0) +
      (if now₂ - p₁.1.last_updated > 5 then 1 else 0))

/-- The `used ≤ total` invariant for one memory/swap pair. -/
def Memory.wf (m : Memory) : Prop := m.used ≤ m.total

/-- The stored snapshot satisfies `used ≤ total` for memory and swap. -/
def AppState.wf (s : AppState) : Prop :=
  s.memory_usage.wf ∧ s.swap_usage.wf

instance (m : Memory) : Decidable m.wf := by unfold Memory.wf; infer_instance

instance (s : AppState) : Decidable s.wf := by unfold AppState.wf; infer_instance

/-! ### Helper lemmas about the two branches of the handler -/

/-- When the staleness test succeeds the handler takes the refresh path. -/
theorem root_of_stale (s : AppState) (now : Int)
    (m sw : Except Unit RawMemory) (c : Except Unit RawCpu)
    (h : now - s.last_updated > 5) :
    root s now m sw c = refresh s now m sw c := by
  simp [root, h]

/-- When the staleness test fails the handler returns the stored snapshot
unchanged. -/
theorem root_of_fresh (s : AppState) (now : Int)
    (m sw : Except Unit RawMemory) (c : Except Unit RawCpu)
    (h : ¬ now - s.last_updated > 5) :
    root s now m sw c = (s, snapshotJson s) := by
  simp [root, h]

/-- A fully successful refresh replaces the snapshot wholesale and
returns the body built from the new state. -/
theorem refresh_ok (s : AppState) (now : Int)
    (m sw : RawMemory) (c : RawCpu) :
    refresh s now (.ok m) (.ok sw) (.ok c) =
      (⟨⟨c.user * 100, c.nice * 100, c.interrupt * 100, c.system * 100,
          c.idle * 100⟩,
        ⟨m.total - m.free, m.total⟩, ⟨sw.total - sw.free, sw.total⟩, now⟩,
       snapshotJson
        ⟨⟨c.user * 100, c.nice * 100, c.interrupt * 100, c.system * 100,
          c.idle * 100⟩,
         ⟨m.total - m.free, m.total⟩, ⟨sw.total - sw.free, sw.total⟩, now⟩) := by
  simp [refresh, sampleMemory]

/-- A refresh in which any sampling fails leaves the state untouched and
returns an error body. -/
theorem refresh_fail (s : AppState) (now : Int)
    (m sw : Except Unit RawMemory) (c : Except Unit RawCpu)
    (h : m = .error () ∨ sw = .error () ∨ c = .error ()) :
    (refresh s now m sw c).1 = s ∧
      ((refresh s now m sw c).2).isErr = true := by
  cases m with
  | error e => simp [refresh, sampleMemory, RootResponse.isErr]
  | ok mr =>
    cases sw with
    | error e => simp [refresh, sampleMemory, RootResponse.isErr]
    | ok swr =>
      cases c with
      | error e => simp [refresh, sampleMemory, RootResponse.isErr]
      | ok cr => rcases h with h | h | h <;> simp_all



/-- C1: staleness rule of `root` (line 90): when `now - last_updated > 5`
the handler refreshes before responding; when `now - last_updated ≤ 5`
(boundary included) it performs no sampling and returns the stored
snapshot as-is with the stored state unchanged. -/
theorem claim1_staleness_rule (s : AppState) (now : Int)
    (m sw : Except Unit RawMemory) (c : Except Unit RawCpu) :
    (now - s.last_updated > 5 → root s now m sw c = refresh s now m sw c) ∧
    (now - s.last_updated ≤ 5 → root s now m sw c = (s, snapshotJson s)) := by
  refine ⟨fun h => root_of_stale s now m sw c h, fun h => ?_⟩
  exact root_of_fresh s now m sw c (by omega)

/-- Witness for C1 at the boundary: `last_updated = 1000`, a request at
`now = 1006` refreshes, a request at `now = 1005` does not. -/
theorem claim1_witness :
    root ⟨⟨1, 2, 3, 4, 5⟩, ⟨10, 20⟩, ⟨0, 7⟩, 1000⟩ 1006
        (.ok ⟨9, 4⟩) (.ok ⟨8, 8⟩) (.ok ⟨0, 0, 0, 0, 1⟩)
      = refresh ⟨⟨1, 2, 3, 4, 5⟩, ⟨10, 20⟩, ⟨0, 7⟩, 1000⟩ 1006
        (.ok ⟨9, 4⟩) (.ok ⟨8, 8⟩) (.ok ⟨0, 0, 0, 0, 1⟩) ∧
    root ⟨⟨1, 2, 3, 4, 5⟩, ⟨10, 20⟩, ⟨0, 7⟩, 1000⟩ 1005
        (.ok ⟨9, 4⟩) (.ok ⟨8, 8⟩) (.ok ⟨0, 0, 0, 0, 1⟩)
      = (⟨⟨1, 2, 3, 4, 5⟩, ⟨10, 20⟩, ⟨0, 7⟩, 1000⟩,
         snapshotJson ⟨⟨1, 2, 3, 4, 5⟩, ⟨10, 20⟩, ⟨0, 7⟩, 1000⟩) :=
  ⟨(claim1_staleness_rule _ 1006 _ _ _).1 (by decide),
   (claim1_staleness_rule _ 1005 _ _ _).2 (by decide)⟩

/-- C2: a refresh in which any of the three samplings fails returns an
error and leaves the stored state bit-identical to before the call. -/
theorem claim2_failure_no_mutation (s : AppState) (now : Int)
    (m sw : Except Unit RawMemory) (c : Except Unit RawCpu)
    (hstale : now - s.last_updated > 5)
    (hfail : m = .error () ∨ sw = .error () ∨ c = .error ()) :
    (root s now m sw c).1 = s ∧ ((root s now m sw c).2).isErr = true := by
  rw [root_of_stale s now m sw c hstale]
  exact refresh_fail s now m sw c hfail

/-- Witness for C2: a stale store at `now = 1006` with a failed swap
sampling. -/
theorem claim2_witness :
    (root ⟨⟨1, 2, 3, 4, 5⟩, ⟨10, 20⟩, ⟨0, 7⟩, 1000⟩ 1006
        (.ok ⟨9, 4⟩) (.error ()) (.ok ⟨0, 0, 0, 0, 1⟩)).1
      = ⟨⟨1, 2, 3, 4, 5⟩, ⟨10, 20⟩, ⟨0, 7⟩, 1000⟩ ∧
    ((root ⟨⟨1, 2, 3, 4, 5⟩, ⟨10, 20⟩, ⟨0, 7⟩, 1000⟩ 1006
        (.ok ⟨9, 4⟩) (.error ()) (.ok ⟨0, 0, 0, 0, 1⟩)).2).isErr = true :=
  claim2_failure_no_mutation _ 1006 _ _ _ (by decide) (Or.inr (Or.inl rfl))

/-- C3: a refresh in which all three samplings succeed replaces the
stored snapshot wholesale with the sampled values, sets
`last_updated = now`, and returns the snapshot body built from the
just-updated stored state. -/
theorem claim3_success_replaces (s : AppState) (now : Int)
    (m sw : RawMemory) (c : RawCpu)
    (hstale : now - s.last_updated > 5) :
    root s now (.ok m) (.ok sw) (.ok c) =
      (⟨⟨c.user * 100, c.nice * 100, c.interrupt * 100, c.system * 100,
          c.idle * 100⟩,
        ⟨m.total - m.free, m.total⟩, ⟨sw.total - sw.free, sw.total⟩, now⟩,
       snapshotJson
        ⟨⟨c.user * 100, c.nice * 100, c.interrupt * 100, c.system * 100,
          c.idle * 100⟩,
         ⟨m.total - m.free, m.total⟩, ⟨sw.total - sw.free, sw.total⟩, now⟩) := by
  rw [root_of_stale _ _ _ _ _ hstale, refresh_ok]

/-- Witness for C3: the end-to-end scenario of the spec — fresh store at
`now = 1000`, memory `{total:1000, free:400}`, swap `{total:200,
free:200}`, cpu `{user:0.1, nice:0, interrupt:0, system:0.05,
idle:0.85}`. -/
theorem claim3_witness :
    root initState 1000 (.ok ⟨1000, 400⟩) (.ok ⟨200, 200⟩)
        (.ok ⟨0.1, 0, 0, 0.05, 0.85⟩)
      = (⟨⟨10, 0, 0, 5, 85⟩, ⟨600, 1000⟩, ⟨0, 200⟩, 1000⟩,
         .ok ⟨10, 0, 0, 5, 85⟩ ⟨600, 1000⟩ ⟨0, 200⟩) := by
  rw [claim3_success_replaces initState 1000 ⟨1000, 400⟩ ⟨200, 200⟩
    ⟨0.1, 0, 0, 0.05, 0.85⟩ (by decide)]
  norm_num [snapshotJson]

/-- C4: errors are reported in the fixed priority order memory > swap >
cpu, with the matching message, and the outcome is independent of the
lower-priority samplings. -/
theorem claim4_error_priority (s : AppState) (now : Int)
    (m sw : Except Unit RawMemory) (c : Except Unit RawCpu)
    (hstale : now - s.last_updated > 5) :
    (m = .error () →
      (root s now m sw c).2 = .err "failed to get memory usage" ∧
      ∀ sw2 c2, root s now m sw2 c2 = root s now m sw c) ∧
    (m ≠ .error () → sw = .error () →
      (root s now m sw c).2 = .err "failed to get swap usage" ∧
      ∀ c2, root s now m sw c2 = root s now m sw c) ∧
    (m ≠ .error () → sw ≠ .error () → c = .error () →
      (root s now m sw c).2 = .err "failed to get cpu usage") := by
  refine ⟨?_, ?_, ?_⟩
  · rintro rfl
    refine ⟨?_, fun sw2 c2 => ?_⟩
    · rw [root_of_stale _ _ _ _ _ hstale]
      simp [refresh, sampleMemory]
    · rw [root_of_stale _ _ _ _ _ hstale, root_of_stale _ _ _ _ _ hstale]
      simp [refresh, sampleMemory]
  · intro hm hsw
    cases m with
    | error e => cases e; exact absurd rfl hm
    | ok mr =>
      subst hsw
      refine ⟨?_, fun c2 => ?_⟩
      · rw [root_of_stale _ _ _ _ _ hstale]
        simp [refresh, sampleMemory]
      · rw [root_of_stale _ _ _ _ _ hstale, root_of_stale _ _ _ _ _ hstale]
        simp [refresh, sampleMemory]
  · intro hm hsw hc
    cases m with
    | error e => cases e; exact absurd rfl hm
    | ok mr =>
      cases sw with
      | error e => cases e; exact absurd rfl hsw
      | ok swr =>
        subst hc
        rw [root_of_stale _ _ _ _ _ hstale]
        simp [refresh, sampleMemory]

/-- Witness for C4: with memory failed and swap failed simultaneously at
a stale store, the memory error wins and swap/cpu inputs are
irrelevant. -/
theorem claim4_witness :
    (root initState 1006 (.error ()) (.error ()) (.ok ⟨0, 0, 0, 0, 1⟩)).2
      = .err "failed to get memory usage" ∧
    root initState 1006 (.error ()) (.ok ⟨8, 8⟩) (.error ())
      = root initState 1006 (.error ()) (.error ()) (.ok ⟨0, 0, 0, 0, 1⟩) :=
  ⟨(claim4_error_priority initState 1006 (.error ()) (.error ())
      (.ok ⟨0, 0, 0, 0, 1⟩) (by decide)).1 rfl |>.1,
   (claim4_error_priority initState 1006 (.error ()) (.error ())
      (.ok ⟨0, 0, 0, 0, 1⟩) (by decide)).1 rfl |>.2 (.ok ⟨8, 8⟩) (.error ())⟩

/-- C5: the `used ≤ total` invariant for memory and swap holds in the
initial state and is preserved by every `root` call. -/
theorem claim5_invariant :
    initState.wf ∧
    ∀ (s : AppState) (now : Int) (m sw : Except Unit RawMemory)
      (c : Except Unit RawCpu),
      s.wf → ((root s now m sw c).1).wf := by
  refine ⟨by decide, ?_⟩
  intro s now m sw c hwf
  by_cases h : now - s.last_updated > 5
  · rw [root_of_stale _ _ _ _ _ h]
    cases m with
    | error e =>
      rw [(refresh_fail s now _ sw c (Or.inl rfl)).1]
      exact hwf
    | ok mr =>
      cases sw with
      | error e =>
        rw [(refresh_fail s now _ _ c (Or.inr (Or.inl rfl))).1]
        exact hwf
      | ok swr =>
        cases c with
        | error e =>
          rw [(refresh_fail s now _ _ _ (Or.inr (Or.inr rfl))).1]
          exact hwf
        | ok cr =>
          rw [refresh_ok]
          exact ⟨Nat.sub_le _ _, Nat.sub_le _ _⟩
  · rw [root_of_fresh _ _ _ _ _ h]
    exact hwf

/-- Witness for C5: the invariant after a successful refresh from the
initial state. -/
theorem claim5_witness :
    ((root initState 1000 (.ok ⟨5, 9⟩) (.ok ⟨7, 2⟩) (.ok ⟨0, 0, 0, 0, 1⟩)).1).wf :=
  claim5_invariant.2 initState 1000 _ _ _ (by decide)

/-- C6: `used` is `total - free` saturating at zero (Rust
`saturating_sub_bytes`), so a reading with `total = 100`, `free = 150`
yields `used = 0`, never a wrap-around value. -/
theorem claim6_saturating_sub :
    (∀ t f : Nat, sampleMemory (.ok ⟨t, f⟩)
       = some ⟨((t : Int) - (f : Int)).toNat, t⟩) ∧
    sampleMemory (.ok ⟨100, 150⟩) = some ⟨0, 100⟩ := by
  constructor
  · intro t f
    have h : ((t : Int) - (f : Int)).toNat = t - f := by omega
    simp [sampleMemory, h]
  · decide

/-- C7: each of the five CPU fields of the stored (and returned) snapshot
is the raw sampled fraction multiplied by 100. -/
theorem claim7_percentage_scaling (s : AppState) (now : Int)
    (m sw : RawMemory) (c : RawCpu)
    (hstale : now - s.last_updated > 5) :
    ((root s now (.ok m) (.ok sw) (.ok c)).1).cpu_usage =
      ⟨c.user * 100, c.nice * 100, c.interrupt * 100, c.system * 100,
        c.idle * 100⟩ ∧
    (root s now (.ok m) (.ok sw) (.ok c)).2 =
      snapshotJson (root s now (.ok m) (.ok sw) (.ok c)).1 := by
  rw [root_of_stale _ _ _ _ _ hstale, refresh_ok]
  exact ⟨rfl, rfl⟩

/-- Witness for C7: a raw idle fraction of `0.97` is stored as exactly
`97`. -/
theorem claim7_witness :
    ((root initState 1000 (.ok ⟨100, 50⟩) (.ok ⟨100, 100⟩)
        (.ok ⟨0.01, 0, 0, 0.02, 0.97⟩)).1).cpu_usage
      = ⟨1, 0, 0, 2, 97⟩ := by
  rw [(claim7_percentage_scaling initState 1000 ⟨100, 50⟩ ⟨100, 100⟩
    ⟨0.01, 0, 0, 0.02, 0.97⟩ (by decide)).1]
  norm_num [CPU.mk.injEq]


/-- Counterexample to C8 in the serialized two-request model: both
requests arrive with the store stale (`now₁ = 1000`, `now₂ = 1001`,
`last_updated = 0`); the first sampling pass fails on memory, the second
succeeds.  Two sampling passes occur (not one), the first caller gets the
memory error while the second gets a fresh snapshot (not the same
result). -/
theorem claim8_counterexample :
    (serveTwo initState 1000 1001
        ⟨.error (), .ok ⟨200, 200⟩, .ok ⟨0, 0, 0, 0, 1⟩⟩
        ⟨.ok ⟨1000, 400⟩, .ok ⟨200, 200⟩, .ok ⟨0, 0, 0, 0, 1⟩⟩).2.2.2 = 2 ∧
    (serveTwo initState 1000 1001
        ⟨.error (), .ok ⟨200, 200⟩, .ok ⟨0, 0, 0, 0, 1⟩⟩
        ⟨.ok ⟨1000, 400⟩, .ok ⟨200, 200⟩, .ok ⟨0, 0, 0, 0, 1⟩⟩).1
      = .err "failed to get memory usage" ∧
    (serveTwo initState 1000 1001
        ⟨.error (), .ok ⟨200, 200⟩, .ok ⟨0, 0, 0, 0, 1⟩⟩
        ⟨.ok ⟨1000, 400⟩, .ok ⟨200, 200⟩, .ok ⟨0, 0, 0, 0, 1⟩⟩).2.1
      = .ok ⟨0, 0, 0, 0, 100⟩ ⟨600, 1000⟩ ⟨0, 200⟩ := by
  refine ⟨?_, ?_, ?_⟩ <;>
    norm_num [serveTwo, root, refresh, sampleMemory, snapshotJson, initState]

/-- C8 (amended): in the mutex-serialized model, two requests arriving
while the store is stale behave as follows.  If the first refresh
succeeds and the second request's time is within the 5-second window of
the first, exactly one sampling pass occurs and both receive the same
snapshot.  If the first refresh fails, the store stays stale, so a
second sampling pass occurs: the first caller receives the error and the
second caller receives its own pass's result. -/
theorem claim8_serialized (s0 : AppState) (now₁ now₂ : Int)
    (r₁ r₂ : SamplerRun) (h₁ : now₁ - s0.last_updated > 5) :
    (∀ (m sw : RawMemory) (c : RawCpu),
      r₁ = ⟨.ok m, .ok sw, .ok c⟩ → now₂ ≤ now₁ + 5 →
        (serveTwo s0 now₁ now₂ r₁ r₂).2.2.2 = 1 ∧
        (serveTwo s0 now₁ now₂ r₁ r₂).1 = (serveTwo s0 now₁ now₂ r₁ r₂).2.1) ∧
    ((r₁.memRes = .error () ∨ r₁.swapRes = .error () ∨ r₁.cpuRes = .error ()) →
      now₁ ≤ now₂ →
        (serveTwo s0 now₁ now₂ r₁ r₂).2.2.2 = 2 ∧
        ((serveTwo s0 now₁ now₂ r₁ r₂).1).isErr = true ∧
        (serveTwo s0 now₁ now₂ r₁ r₂).2.1
          = (root s0 now₂ r₂.memRes r₂.swapRes r₂.cpuRes).2) := by
  constructor
  · rintro m sw c rfl h₂
    have h4 : ¬ (now₂ - now₁ > 5) := by omega
    simp only [serveTwo]
    rw [root_of_stale _ _ _ _ _ h₁, refresh_ok]
    rw [root_of_fresh _ _ _ _ _ (by simpa using h4)]
    simp [h₁, h4]
  · intro hfail h₂
    have h3 : now₂ - s0.last_updated > 5 := by omega
    have hkeep := (refresh_fail s0 now₁ r₁.memRes r₁.swapRes r₁.cpuRes hfail).1
    have herr := (refresh_fail s0 now₁ r₁.memRes r₁.swapRes r₁.cpuRes hfail).2
    simp only [serveTwo]
    rw [root_of_stale _ _ _ _ _ h₁, hkeep]
    refine ⟨?_, herr, rfl⟩
    simp [h₁, h3]

/-- Witness for C8 (amended), success half: stale store, first pass
succeeds, second request one second later — one pass, identical
snapshots; failure half at concrete inputs via the counterexample-style
scenario is covered by the hypotheses-discharged application below. -/
theorem claim8_witness :
    ((serveTwo initState 1000 1001
        ⟨.ok ⟨1000, 400⟩, .ok ⟨200, 200⟩, .ok ⟨0, 0, 0, 0, 1⟩⟩
        ⟨.ok ⟨9, 4⟩, .ok ⟨8, 8⟩, .ok ⟨0, 0, 0, 0, 1⟩⟩).2.2.2 = 1 ∧
      (serveTwo initState 1000 1001
        ⟨.ok ⟨1000, 400⟩, .ok ⟨200, 200⟩, .ok ⟨0, 0, 0, 0, 1⟩⟩
        ⟨.ok ⟨9, 4⟩, .ok ⟨8, 8⟩, .ok ⟨0, 0, 0, 0, 1⟩⟩).1
        = (serveTwo initState 1000 1001
            ⟨.ok ⟨1000, 400⟩, .ok ⟨200, 200⟩, .ok ⟨0, 0, 0, 0, 1⟩⟩
            ⟨.ok ⟨9, 4⟩, .ok ⟨8, 8⟩, .ok ⟨0, 0, 0, 0, 1⟩⟩).2.1) ∧
    ((serveTwo initState 2000 2001
        ⟨.error (), .ok ⟨200, 200⟩, .ok ⟨0, 0, 0, 0, 1⟩⟩
        ⟨.ok ⟨9, 4⟩, .ok ⟨8, 8⟩, .ok ⟨0, 0, 0, 0, 1⟩⟩).2.2.2 = 2 ∧
      ((serveTwo initState 2000 2001
        ⟨.error (), .ok ⟨200, 200⟩, .ok ⟨0, 0, 0, 0, 1⟩⟩
        ⟨.ok ⟨9, 4⟩, .ok ⟨8, 8⟩, .ok ⟨0, 0, 0, 0, 1⟩⟩).1).isErr = true ∧
      (serveTwo initState 2000 2001
        ⟨.error (), .ok ⟨200, 200⟩, .ok ⟨0, 0, 0, 0, 1⟩⟩
        ⟨.ok ⟨9, 4⟩, .ok ⟨8, 8⟩, .ok ⟨0, 0, 0, 0, 1⟩⟩).2.1
        = (root initState 2001 (.ok ⟨9, 4⟩) (.ok ⟨8, 8⟩)
            (.ok ⟨0, 0, 0, 0, 1⟩)).2) :=
  ⟨(claim8_serialized initState 1000 1001 _ _ (by decide)).1
      ⟨1000, 400⟩ ⟨200, 200⟩ ⟨0, 0, 0, 0, 1⟩ rfl (by decide),
   (claim8_serialized initState 2000 2001 _ _ (by decide)).2
      (Or.inl rfl) (by decide)⟩

/-- Counterexample to C9: at first-access time `now = 3` the initial
store (`last_updated = 0`) is NOT refreshed — the staleness test
`3 - 0 > 5` fails, the all-zero snapshot is served and the successful
sampler readings are discarded, contradicting "forces a refresh on first
access for every first-access time". -/
theorem claim9_counterexample :
    root initState 3 (.ok ⟨100, 50⟩) (.ok ⟨100, 100⟩) (.ok ⟨0, 0, 0, 0, 1⟩)
      = (initState, snapshotJson initState) ∧
    root initState 3 (.ok ⟨100, 50⟩) (.ok ⟨100, 100⟩) (.ok ⟨0, 0, 0, 0, 1⟩)
      ≠ refresh initState 3 (.ok ⟨100, 50⟩) (.ok ⟨100, 100⟩)
          (.ok ⟨0, 0, 0, 0, 1⟩) := by
  constructor
  · decide
  · norm_num [root, refresh, sampleMemory, snapshotJson, initState]

/-- C9 (amended): the stored snapshot is initialized with all five CPU
fields 0, memory and swap `{used: 0, total: 0}` and `last_updated = 0`;
the first access takes the refresh path for every first-access time
`now > 5` (in particular any realistic wall-clock time), while for
`now ≤ 5` the zero snapshot is served without refresh. -/
theorem claim9_init_first_access :
    initState = ⟨⟨0, 0, 0, 0, 0⟩, ⟨0, 0⟩, ⟨0, 0⟩, 0⟩ ∧
    ∀ (now : Int) (m sw : Except Unit RawMemory) (c : Except Unit RawCpu),
      now > 5 → root initState now m sw c = refresh initState now m sw c := by
  refine ⟨rfl, fun now m sw c h => ?_⟩
  exact root_of_stale _ _ _ _ _ (by simp [initState]; omega)

/-- Witness for C9 (amended): the first access at a realistic epoch time
takes the refresh path. -/
theorem claim9_witness :
    root initState 1700000000 (.error ()) (.error ()) (.error ())
      = refresh initState 1700000000 (.error ()) (.error ()) (.error ()) :=
  claim9_init_first_access.2 1700000000 _ _ _ (by decide)

/-- C10: the staleness test uses signed subtraction, so any
`now ≤ last_updated + 5` — including any `now` in the past of
`last_updated`, however far — yields a difference ≤ 5, the store is
treated as fresh, and the stored snapshot is served with no sampling and
no state change. -/
theorem claim10_clock_backwards (s : AppState) (now : Int)
    (m sw : Except Unit RawMemory) (c : Except Unit RawCpu)
    (h : now ≤ s.last_updated + 5) :
    root s now m sw c = (s, snapshotJson s) :=
  root_of_fresh s now m sw c (by omega)

/-- Witness for C10: a request 2 billion seconds before the stored
timestamp is served from cache. -/
theorem claim10_witness :
    root ⟨⟨1, 2, 3, 4, 5⟩, ⟨10, 20⟩, ⟨0, 7⟩, 1700000000⟩ (-2000000000)
        (.error ()) (.error ()) (.error ())
      = (⟨⟨1, 2, 3, 4, 5⟩, ⟨10, 20⟩, ⟨0, 7⟩, 1700000000⟩,
         snapshotJson ⟨⟨1, 2, 3, 4, 5⟩, ⟨10, 20⟩, ⟨0, 7⟩, 1700000000⟩) :=
  claim10_clock_backwards _ (-2000000000) _ _ _ (by decide)

end StatMonitor
